import Mathlib

/-!
Verification of the DataSyncCompare reconciliation engine (`core_analysis.py`).

The embedding models a filtered data table as a primary key column plus a
positional list of non-key cells; a cell is `Option V` where `none` is the
pandas null (`NaN`).  Pandas `==` on two cells is `false` whenever either side
is null (in particular `NaN == NaN` is `False`); the explicit null-aware test
used by several views (`(a == b) | (a.isnull() & b.isnull())`) additionally
accepts the null/null pair.

`outerMerge` models `pd.merge(df_new, df_old, on='Primary_Key', how='outer',
indicator=True)`: every new-side row is fanned out against all old-side rows
sharing its key (tag `both`), a new-side row with no key partner becomes a
`left_only` record whose old cells are all null, and symmetrically for
old-side rows (`right_only`).
-/

namespace DataSync

variable {K V : Type}

/-- One row of a filtered table: the `Primary_Key` value and the non-key
cells in positional order (`none` = pandas null). -/
abbrev Row (K V : Type) := K × List (Option V)

instance {ε α : Type} [DecidableEq ε] [DecidableEq α] : DecidableEq (Except ε α) :=
  fun a b =>
    match a, b with
    | .error e, .error f =>
      if h : e = f then .isTrue (by rw [h]) else .isFalse (by intro c; cases c; exact h rfl)
    | .error _, .ok _ => .isFalse (by intro c; cases c)
    | .ok _, .error _ => .isFalse (by intro c; cases c)
    | .ok a, .ok b =>
      if h : a = b then .isTrue (by rw [h]) else .isFalse (by intro c; cases c; exact h rfl)

/-- A filtered table: the number of non-key columns (the length of the
non-key column-name list of the DataFrame) and its rows. -/
structure Table (K V : Type) where
  ncols : Nat
  rows : List (Row K V)

/-- Well-formed table: every row carries exactly `ncols` non-key cells
(a DataFrame is rectangular). -/
def Table.wf (t : Table K V) : Prop := ∀ r ∈ t.rows, r.2.length = t.ncols

/-- Pandas vectorised `==` on two cells: `False` whenever either side is
null, otherwise value equality (`NaN == NaN` is `False` in pandas). -/
def pdEq [DecidableEq V] : Option V → Option V → Bool
  | some a, some b => decide (a = b)
  | _, _ => false

/-- `a.isnull() & b.isnull()` on one cell pair. -/
def bothNull : Option V → Option V → Bool
  | none, none => true
  | _, _ => false

/-- The null-aware cell comparison `(a == b) | (a.isnull() & b.isnull())`
used by `get_matching_records`, `generate_column_summary` and
`get_detailed_mismatched_records`. -/
def cellMatch [DecidableEq V] (n o : Option V) : Bool := pdEq n o || bothNull n o

/-- Provenance of a joined record, pandas' `_merge` indicator column:
`leftOnly` = present only in the new table, `rightOnly` = present only in
the old table. -/
inductive Tag where
  | both : Tag
  | leftOnly : Tag
  | rightOnly : Tag
deriving DecidableEq

/-- One record of the merged DataFrame: the key, the `_merge` indicator and
the new-side and old-side cells of every non-key column (the absent side of
a one-sided record is all nulls, as in a pandas outer merge). -/
structure JRec (K V : Type) where
  key : K
  tag : Tag
  newVals : List (Option V)
  oldVals : List (Option V)
deriving DecidableEq

/-- All rows of `rows` whose primary key equals `k`, in order. -/
def keyMatches [DecidableEq K] (rows : List (Row K V)) (k : K) : List (Row K V) :=
  rows.filter fun r => decide (r.1 = k)

/-- `pd.merge(df_new, df_old, on='Primary_Key', how='outer', indicator=True)`:
new rows in order, each fanned out against all old rows with the same key
(or emitted once as `left_only` with null old cells), followed by the old
rows whose key never occurs in the new table (`right_only`). -/
def outerMerge [DecidableEq K] (newRows oldRows : List (Row K V)) (ncols : Nat) :
    List (JRec K V) :=
  (newRows.map fun r =>
    if (keyMatches oldRows r.1).isEmpty then
      [⟨r.1, Tag.leftOnly, r.2, List.replicate ncols none⟩]
    else (keyMatches oldRows r.1).map fun m => ⟨r.1, Tag.both, r.2, m.2⟩).flatten
  ++ (oldRows.filter fun r => (keyMatches newRows r.1).isEmpty).map
      fun r => ⟨r.1, Tag.rightOnly, List.replicate ncols none, r.2⟩

/-- `pd.merge(df_new, df_old, on='Primary_Key', how='inner')` as used by
`get_matching_records`: only the key-partnered pairs. -/
def innerMerge [DecidableEq K] (newRows oldRows : List (Row K V)) : List (JRec K V) :=
  (newRows.map fun r =>
    (keyMatches oldRows r.1).map fun m => JRec.mk r.1 Tag.both r.2 m.2).flatten

/-- Full-row match test of `compare_primary_keys_and_rows_by_position`
(lines 78-94): for every non-key column, plain pandas `==` on the two sides.
No null handling: a null/null cell fails this test. -/
def fullMatchStrict [DecidableEq V] (n : Nat) (r : JRec K V) : Bool :=
  (List.range n).all fun i => pdEq (r.newVals.getD i none) (r.oldVals.getD i none)

/-- Full-row match test of `get_matching_records` (lines 280-292): for every
non-key column, the null-aware comparison. -/
def fullMatchNullAware [DecidableEq V] (n : Nat) (r : JRec K V) : Bool :=
  (List.range n).all fun i => cellMatch (r.newVals.getD i none) (r.oldVals.getD i none)

/-- `df.duplicated(subset='Primary_Key', keep=False).sum()`: the number of
rows whose key occurs at least twice in the same table. -/
def duplicatedKeepFalseCount [DecidableEq K] (rows : List (Row K V)) : Nat :=
  rows.countP fun r => 2 ≤ rows.countP fun s => decide (s.1 = r.1)

/-- `df[df.duplicated(subset=['Primary_Key'], keep=False)]`: the rows whose
key occurs at least twice in the same table, in order, with multiplicity. -/
def duplicatedKeepFalseRows [DecidableEq K] (rows : List (Row K V)) : List (Row K V) :=
  rows.filter fun r => 2 ≤ rows.countP fun s => decide (s.1 = r.1)

/-- The metric record returned by `compare_primary_keys_and_rows_by_position`. -/
structure Metrics where
  oldRecordCount : Nat
  newRecordCount : Nat
  oldExtraRecords : Nat
  newExtraRecords : Nat
  oldDuplicateRecords : Nat
  newDuplicateRecords : Nat
  matchRecordCount : Nat
  mismatchRecordCount : Nat
deriving DecidableEq

/-- `compare_primary_keys_and_rows_by_position`: checks the non-key column
counts, outer-merges on the key, and computes the metric dictionary.  The
full-row match mask uses plain pandas `==` per column (`fullMatchStrict`). -/
def comparePrimaryKeysAndRowsByPosition [DecidableEq K] [DecidableEq V]
    (tnew told : Table K V) : Except String Metrics :=
  if tnew.ncols ≠ told.ncols then
    .error "Number of non-key columns differ between NewDataTable and OldDataTable filtered DataFrames."
  else
    let merged := outerMerge tnew.rows told.rows tnew.ncols
    .ok
      { oldRecordCount := told.rows.length
        newRecordCount := tnew.rows.length
        oldExtraRecords := (merged.filter fun r => decide (r.tag = Tag.rightOnly)).length
        newExtraRecords := (merged.filter fun r => decide (r.tag = Tag.leftOnly)).length
        oldDuplicateRecords := duplicatedKeepFalseCount told.rows
        newDuplicateRecords := duplicatedKeepFalseCount tnew.rows
        matchRecordCount :=
          (merged.filter fun r => decide (r.tag = Tag.both) && fullMatchStrict tnew.ncols r).length
        mismatchRecordCount :=
          (merged.filter fun r => decide (r.tag = Tag.leftOnly)).length
          + (merged.filter fun r => decide (r.tag = Tag.rightOnly)).length
          + (merged.filter fun r =>
              decide (r.tag = Tag.both) && !fullMatchStrict tnew.ncols r).length }

/-- One output row of `generate_column_summary` (the column name is the
positional index in the embedding). -/
structure ColSummaryRow where
  Matches : Nat
  Mismatches : Nat
  NotNullNotNull : Nat
  NotNullNull : Nat
  NullNotNull : Nat
  NullNull : Nat
deriving DecidableEq

/-- One iteration of the column loop of `generate_column_summary` (lines
186-222) for the column at position `i`: over the whole merge, count
null-aware matches and mismatches; sub-count the mismatched rows by null
pattern; tally `Null - Null` over the whole merge. -/
def columnSummaryRow [DecidableEq V] (merged : List (JRec K V)) (i : Nat) : ColSummaryRow :=
  { Matches := merged.countP fun r =>
      cellMatch (r.newVals.getD i none) (r.oldVals.getD i none)
    Mismatches := merged.countP fun r =>
      !cellMatch (r.newVals.getD i none) (r.oldVals.getD i none)
    NotNullNotNull := (merged.filter fun r =>
      !cellMatch (r.newVals.getD i none) (r.oldVals.getD i none)).countP fun r =>
        (r.newVals.getD i none).isSome && (r.oldVals.getD i none).isSome
    NotNullNull := (merged.filter fun r =>
      !cellMatch (r.newVals.getD i none) (r.oldVals.getD i none)).countP fun r =>
        (r.newVals.getD i none).isSome && (r.oldVals.getD i none).isNone
    NullNotNull := (merged.filter fun r =>
      !cellMatch (r.newVals.getD i none) (r.oldVals.getD i none)).countP fun r =>
        (r.newVals.getD i none).isNone && (r.oldVals.getD i none).isSome
    NullNull := merged.countP fun r =>
      (r.newVals.getD i none).isNone && (r.oldVals.getD i none).isNone }

/-- `generate_column_summary`: checks the non-key column counts,
outer-merges on the key and emits one `columnSummaryRow` per non-key
column position, in the new side's column order. -/
def generateColumnSummary [DecidableEq K] [DecidableEq V]
    (tnew told : Table K V) : Except String (List ColSummaryRow) :=
  if tnew.ncols ≠ told.ncols then
    .error "Number of non-key columns differ between NewDataTable and OldDataTable."
  else
    .ok ((List.range tnew.ncols).map
      (columnSummaryRow (outerMerge tnew.rows told.rows tnew.ncols)))

/-- `get_matching_records`: checks the column counts, inner-merges on the
key, keeps the records whose every non-key column matches under the
null-aware rule, and projects each to the key plus the new-side cells. -/
def getMatchingRecords [DecidableEq K] [DecidableEq V]
    (tnew told : Table K V) : Except String (List (Row K V)) :=
  if tnew.ncols ≠ told.ncols then
    .error "Number of non-key columns differ between NewDataTable and OldDataTable."
  else
    .ok (((innerMerge tnew.rows told.rows).filter fun r =>
        fullMatchNullAware tnew.ncols r).map fun r => (r.key, r.newVals))

/-- `fillna('null').astype(str)` on one cell: the value's string form, or
the literal string `null` for a pandas null. -/
def renderVal (toStr : V → String) : Option V → String
  | some v => toStr v
  | none => "null"

/-- The annotation written into a mismatched cell by
`get_detailed_mismatched_records` (lines 383-388). -/
def mismatchCellStr (toStr : V → String) (ov nv : Option V) : String :=
  "O: " ++ renderVal toStr ov ++ ", N: " ++ renderVal toStr nv

/-- The cells of one output row of `get_detailed_mismatched_records`: per
column, a `both` record keeps the plain new-side value where the null-aware
comparison succeeds and otherwise the `O: .., N: ..` annotation; the cells
of one-sided records are then overwritten wholesale with the annotation in
which the absent side is the literal `null` (lines 393-409).  A cell is
`Sum.inl` for a plain retained value and `Sum.inr` for an annotation
string, mirroring the mixed object column of the pandas frame. -/
def detailedCells [DecidableEq V] (toStr : V → String) (n : Nat) (r : JRec K V) :
    List (Option V ⊕ String) :=
  (List.range n).map fun i =>
    let nv := r.newVals.getD i none
    let ov := r.oldVals.getD i none
    match r.tag with
    | Tag.both =>
        if cellMatch nv ov then Sum.inl nv
        else Sum.inr (mismatchCellStr toStr ov nv)
    | Tag.leftOnly => Sum.inr ("O: null, N: " ++ renderVal toStr nv)
    | Tag.rightOnly => Sum.inr ("O: " ++ renderVal toStr ov ++ ", N: null")

/-- The row filter of `get_detailed_mismatched_records` (line 412):
`mismatch_row_mask | only_new_mask | only_old_mask`, where the mismatch row
mask is the OR over columns of the per-cell null-aware mismatch masks. -/
def detailedRowIncluded [DecidableEq V] (n : Nat) (r : JRec K V) : Bool :=
  ((List.range n).any fun i =>
      !cellMatch (r.newVals.getD i none) (r.oldVals.getD i none))
    || decide (r.tag = Tag.leftOnly) || decide (r.tag = Tag.rightOnly)

/-- `get_detailed_mismatched_records`: checks the column counts,
outer-merges on the key, keeps the rows with a cell mismatch or a one-sided
tag, and emits key plus rendered cells per kept row. -/
def getDetailedMismatchedRecords [DecidableEq K] [DecidableEq V] (toStr : V → String)
    (tnew told : Table K V) : Except String (List (K × List (Option V ⊕ String))) :=
  if tnew.ncols ≠ told.ncols then
    .error "Number of non-key columns differ between NewDataTable and OldDataTable."
  else
    .ok (((outerMerge tnew.rows told.rows tnew.ncols).filter fun r =>
        detailedRowIncluded tnew.ncols r).map fun r =>
      (r.key, detailedCells toStr tnew.ncols r))

/-- `df_side.merge(df_other[['Primary_Key']], on='Primary_Key', how='left',
indicator=True)`: each left row fanned out once per occurrence of its key
in the other side's key column (indicator `true` = `both`), or kept once
with indicator `false` (= `left_only`) when its key never occurs there. -/
def leftMergeIndicator [DecidableEq K] (left : List (Row K V)) (rightKeys : List K) :
    List (Row K V × Bool) :=
  (left.map fun r =>
    if (rightKeys.filter fun k => decide (k = r.1)).isEmpty then [(r, false)]
    else (rightKeys.filter fun k => decide (k = r.1)).map fun _ => (r, true)).flatten

/-- `get_extra_and_duplicate_records`: rejects a side selector other than
`Old` / `New`, otherwise returns the pair (Extra_Records, Duplicate_Records)
for the requested side: the `left_only` rows of the key-indicator left merge
against the other side, and the rows whose key is duplicated within the
requested side. -/
def getExtraAndDuplicateRecords [DecidableEq K] (tnew told : Table K V) (table : String) :
    Except String (List (Row K V) × List (Row K V)) :=
  if table ≠ "Old" ∧ table ≠ "New" then
    .error "Parameter table must be either Old or New."
  else if table = "Old" then
    .ok (((leftMergeIndicator told.rows (tnew.rows.map Prod.fst)).filter
            fun p => !p.2).map Prod.fst,
         duplicatedKeepFalseRows told.rows)
  else
    .ok (((leftMergeIndicator tnew.rows (told.rows.map Prod.fst)).filter
            fun p => !p.2).map Prod.fst,
         duplicatedKeepFalseRows tnew.rows)

/-- One output row of a per-column comparison sheet. -/
structure SheetRow (K : Type) where
  key : K
  Expected : String
  Actual : String
  Comparison : String
deriving DecidableEq

/-- `compare_columns_and_generate_sheets`: on a non-key column-count
mismatch it prints an error and returns the still-empty sheet dictionary
(lines 501-504) — it does not raise.  Otherwise, per non-key column, it
inner-merges old (left) against new (right) on the key and emits Expected
(old value), Actual (new value) and the `E: .., A: ..` comparison string,
nulls rendered as the literal `null`. -/
def compareColumnsAndGenerateSheets [DecidableEq K] (toStr : V → String)
    (tnew told : Table K V) : List (List (SheetRow K)) :=
  if tnew.ncols ≠ told.ncols then []
  else
    (List.range tnew.ncols).map fun i =>
      (told.rows.map fun r =>
        (keyMatches tnew.rows r.1).map fun m =>
          let e := renderVal toStr (r.2.getD i none)
          let a := renderVal toStr (m.2.getD i none)
          SheetRow.mk r.1 e a ("E: " ++ e ++ ", A: " ++ a)).flatten

/-- The spec's null-aware cell rule, stated in its own words: the new-side
value equals the old-side value, or both are null/missing. -/
def CellMatchesSpec (nv ov : Option V) : Prop := nv = ov ∨ (nv = none ∧ ov = none)

/-- The spec's row-level full-match rule for a joined record over `n`
non-key columns. -/
def FullMatchSpec (n : Nat) (r : JRec K V) : Prop :=
  ∀ i < n, CellMatchesSpec (r.newVals.getD i none) (r.oldVals.getD i none)

/-- Strict cell equality as actually computed by the Reconciler's metric
mask: both sides present and equal. -/
def CellStrictEqSpec (nv ov : Option V) : Prop := nv = ov ∧ nv ≠ none

/-- Strict row-level full match over `n` non-key columns. -/
def StrictFullMatchSpec (n : Nat) (r : JRec K V) : Prop :=
  ∀ i < n, CellStrictEqSpec (r.newVals.getD i none) (r.oldVals.getD i none)

instance [DecidableEq V] (nv ov : Option V) : Decidable (CellMatchesSpec nv ov) := by
  unfold CellMatchesSpec; infer_instance

instance [DecidableEq V] (nv ov : Option V) : Decidable (CellStrictEqSpec nv ov) := by
  unfold CellStrictEqSpec; infer_instance

instance [DecidableEq V] (n : Nat) (r : JRec K V) : Decidable (FullMatchSpec n r) := by
  unfold FullMatchSpec; infer_instance

instance [DecidableEq V] (n : Nat) (r : JRec K V) : Decidable (StrictFullMatchSpec n r) := by
  unfold StrictFullMatchSpec; infer_instance

end DataSync

namespace DataSync

example : pdEq (some 3) (some 3) = true := by decide
example : pdEq (V := Nat) none none = false := by decide
example : cellMatch (V := Nat) none none = true := by decide

example :
    comparePrimaryKeysAndRowsByPosition
      (K := String) (V := Nat)
      ⟨1, [("A", [some 5])]⟩ ⟨1, [("A", [some 5]), ("A", [some 6])]⟩ =
    .ok ⟨2, 1, 0, 0, 2, 0, 1, 1⟩ := by decide

theorem cellMatch_eq_true_iff [DecidableEq V] (nv ov : Option V) :
    cellMatch nv ov = true ↔ nv = ov := by
  cases nv <;> cases ov <;> simp [cellMatch, pdEq, bothNull]

theorem pdEq_eq_true_iff [DecidableEq V] (nv ov : Option V) :
    pdEq nv ov = true ↔ CellStrictEqSpec nv ov := by
  cases nv <;> cases ov <;> simp [pdEq, CellStrictEqSpec]

theorem cellMatchesSpec_iff_eq (nv ov : Option V) :
    CellMatchesSpec nv ov ↔ nv = ov := by
  constructor
  · rintro (h | ⟨h1, h2⟩)
    · exact h
    · rw [h1, h2]
  · exact fun h => Or.inl h

theorem bothNull_eq_true_iff (nv ov : Option V) :
    bothNull nv ov = true ↔ nv = none ∧ ov = none := by
  cases nv <;> cases ov <;> simp [bothNull]

theorem fullMatchNullAware_eq_true_iff [DecidableEq V] (n : Nat) (r : JRec K V) :
    fullMatchNullAware n r = true ↔ FullMatchSpec n r := by
  simp [fullMatchNullAware, FullMatchSpec, List.all_eq_true, List.mem_range,
    cellMatch_eq_true_iff, cellMatchesSpec_iff_eq]

theorem fullMatchStrict_eq_true_iff [DecidableEq V] (n : Nat) (r : JRec K V) :
    fullMatchStrict n r = true ↔ StrictFullMatchSpec n r := by
  simp [fullMatchStrict, StrictFullMatchSpec, List.all_eq_true, List.mem_range,
    pdEq_eq_true_iff]

theorem length_filter_and_split {α : Type} (l : List α) (q p : α → Bool) :
    (l.filter q).length
      = (l.filter fun x => q x && p x).length + (l.filter fun x => q x && !p x).length := by
  induction l with
  | nil => simp
  | cons a t ih =>
    by_cases hq : q a <;> by_cases hp : p a <;>
      simp [List.filter_cons, hq, hp, ih] <;> omega

theorem length_eq_tag_partition (l : List (JRec K V)) :
    l.length = (l.filter fun r => decide (r.tag = Tag.both)).length
      + (l.filter fun r => decide (r.tag = Tag.leftOnly)).length
      + (l.filter fun r => decide (r.tag = Tag.rightOnly)).length := by
  induction l with
  | nil => simp
  | cons a t ih =>
    cases h : a.tag <;> simp [List.filter_cons, h, ih] <;> omega

theorem countP_three_partition {α : Type} {p q s : α → Bool} :
    ∀ {l : List α},
      (∀ x ∈ l, (if p x then 1 else 0) + (if q x then 1 else 0) + (if s x then 1 else 0) = 1) →
      l.countP p + l.countP q + l.countP s = l.length := by
  intro l
  induction l with
  | nil => intro _; simp
  | cons a t ih =>
    intro h
    have ha := h a (List.mem_cons_self a t)
    have ht := ih fun x hx => h x (List.mem_cons_of_mem a hx)
    simp only [List.countP_cons, List.length_cons]
    cases hp : p a <;> cases hq : q a <;> cases hs : s a <;>
      simp [hp, hq, hs] at ha ⊢ <;> omega

theorem outerMerge_leftOnly_oldVals [DecidableEq K] {newRows oldRows : List (Row K V)}
    {n : Nat} {r : JRec K V} (hr : r ∈ outerMerge newRows oldRows n)
    (ht : r.tag = Tag.leftOnly) : r.oldVals = List.replicate n none := by
  unfold outerMerge at hr
  rcases List.mem_append.mp hr with h | h
  · rcases List.mem_flatten.mp h with ⟨l, hl, hrl⟩
    rcases List.mem_map.mp hl with ⟨row, _, rfl⟩
    by_cases he : (keyMatches oldRows row.1).isEmpty
    · simp only [he, if_pos] at hrl
      rcases List.mem_singleton.mp hrl with rfl
      rfl
    · simp only [he, if_neg, Bool.false_eq_true, not_false_iff] at hrl
      rcases List.mem_map.mp hrl with ⟨m, _, rfl⟩
      simp at ht
  · rcases List.mem_map.mp h with ⟨row, _, rfl⟩
    simp at ht

theorem outerMerge_rightOnly_newVals [DecidableEq K] {newRows oldRows : List (Row K V)}
    {n : Nat} {r : JRec K V} (hr : r ∈ outerMerge newRows oldRows n)
    (ht : r.tag = Tag.rightOnly) : r.newVals = List.replicate n none := by
  unfold outerMerge at hr
  rcases List.mem_append.mp hr with h | h
  · rcases List.mem_flatten.mp h with ⟨l, hl, hrl⟩
    rcases List.mem_map.mp hl with ⟨row, _, rfl⟩
    by_cases he : (keyMatches oldRows row.1).isEmpty
    · simp only [he, if_pos] at hrl
      rcases List.mem_singleton.mp hrl with rfl
      simp at ht
    · simp only [he, if_neg, Bool.false_eq_true, not_false_iff] at hrl
      rcases List.mem_map.mp hrl with ⟨m, _, rfl⟩
      simp at ht
  · rcases List.mem_map.mp h with ⟨row, _, rfl⟩
    rfl

theorem outerMerge_filter_both_eq_innerMerge [DecidableEq K]
    (newRows oldRows : List (Row K V)) (n : Nat) :
    (outerMerge newRows oldRows n).filter (fun r => decide (r.tag = Tag.both))
      = innerMerge newRows oldRows := by
  unfold outerMerge innerMerge
  rw [List.filter_append, List.filter_map, List.filter_flatten, List.map_map]
  have h1 : List.filter
      ((fun r : JRec K V => decide (r.tag = Tag.both)) ∘
        fun r : Row K V => JRec.mk r.1 Tag.rightOnly (List.replicate n none) r.2)
      (oldRows.filter fun r => (keyMatches newRows r.1).isEmpty) = [] := by
    simp [Function.comp_def]
  rw [h1, List.map_nil, List.append_nil]
  congr 1
  apply List.map_congr_left
  intro r _
  by_cases he : (keyMatches oldRows r.1).isEmpty
  · simp only [Function.comp_def, he, if_pos]
    rw [List.isEmpty_iff.mp he]
    simp
  · simp only [Function.comp_def, he, if_neg, Bool.false_eq_true, not_false_iff]
    rw [List.filter_map]
    have : ((fun r : JRec K V => decide (r.tag = Tag.both)) ∘
        fun m : Row K V => JRec.mk r.1 Tag.both r.2 m.2) = fun _ => true := by
      funext m; simp [Function.comp_def]
    rw [this, List.filter_true]

theorem cellMatch_eq_decide [DecidableEq V] (nv ov : Option V) :
    cellMatch nv ov = decide (nv = ov) := by
  cases nv <;> cases ov <;> simp [cellMatch, pdEq, bothNull]

theorem fullMatchStrict_eq_decide [DecidableEq V] (n : Nat) (r : JRec K V) :
    fullMatchStrict n r = decide (StrictFullMatchSpec n r) := by
  by_cases hs : StrictFullMatchSpec n r
  · rw [decide_eq_true hs, (fullMatchStrict_eq_true_iff n r).mpr hs]
  · rw [decide_eq_false hs, Bool.eq_false_iff]
    intro h
    exact hs ((fullMatchStrict_eq_true_iff n r).mp h)

theorem fullMatchNullAware_eq_decide [DecidableEq V] (n : Nat) (r : JRec K V) :
    fullMatchNullAware n r = decide (FullMatchSpec n r) := by
  by_cases hs : FullMatchSpec n r
  · rw [decide_eq_true hs, (fullMatchNullAware_eq_true_iff n r).mpr hs]
  · rw [decide_eq_false hs, Bool.eq_false_iff]
    intro h
    exact hs ((fullMatchNullAware_eq_true_iff n r).mp h)

theorem leftMerge_leftOnly_eq_filter [DecidableEq K] (left : List (Row K V))
    (rightKeys : List K) :
    ((leftMergeIndicator left rightKeys).filter fun p => !p.2).map Prod.fst
      = left.filter fun r => decide (¬ r.1 ∈ rightKeys) := by
  induction left with
  | nil => rfl
  | cons a t ih =>
    unfold leftMergeIndicator at ih ⊢
    simp only [List.map_cons, List.flatten_cons, List.filter_append, List.map_append]
    rw [ih, List.filter_cons]
    by_cases he : (rightKeys.filter fun k => decide (k = a.1)).isEmpty
    · have hmem : ¬ a.1 ∈ rightKeys := by
        intro hm
        have hx : a.1 ∈ rightKeys.filter fun k => decide (k = a.1) :=
          List.mem_filter.mpr ⟨hm, by simp⟩
        rw [List.isEmpty_iff.mp he] at hx
        simp at hx
      simp [he, hmem]
    · rcases hfe : rightKeys.filter (fun k => decide (k = a.1)) with _ | ⟨k, ks⟩
      · rw [hfe] at he
        simp at he
      · have hkmem : k ∈ rightKeys.filter fun k => decide (k = a.1) := by
          rw [hfe]
          exact List.mem_cons_self _ _
        have hmem : a.1 ∈ rightKeys := by
          rw [← of_decide_eq_true (List.mem_filter.mp hkmem).2]
          exact (List.mem_filter.mp hkmem).1
        simp [List.filter_map, Function.comp_def, hmem]

/-- C3: with equal non-key column counts the Metrics Summary is complete:
Match Record Count + Mismatch Record Count equals the total number of joined
records of the outer join, which is the both-tagged count plus the new-only
count plus the old-only count; and the Mismatch count is exactly the number
of both-tagged records that are not (strict) full matches plus the new-only
count plus the old-only count, so a one-sided record is always counted as a
mismatch and never as neither. -/
theorem c3_metrics_completeness [DecidableEq K] [DecidableEq V]
    (tnew told : Table K V) (hn : tnew.ncols = told.ncols) :
    ∃ m : Metrics, comparePrimaryKeysAndRowsByPosition tnew told = .ok m
      ∧ m.matchRecordCount + m.mismatchRecordCount
          = (outerMerge tnew.rows told.rows tnew.ncols).length
      ∧ (outerMerge tnew.rows told.rows tnew.ncols).length
          = ((outerMerge tnew.rows told.rows tnew.ncols).filter fun r =>
                decide (r.tag = Tag.both)).length
            + ((outerMerge tnew.rows told.rows tnew.ncols).filter fun r =>
                decide (r.tag = Tag.leftOnly)).length
            + ((outerMerge tnew.rows told.rows tnew.ncols).filter fun r =>
                decide (r.tag = Tag.rightOnly)).length
      ∧ m.mismatchRecordCount
          = ((outerMerge tnew.rows told.rows tnew.ncols).filter fun r =>
                decide (r.tag = Tag.both) && !decide (StrictFullMatchSpec tnew.ncols r)).length
            + ((outerMerge tnew.rows told.rows tnew.ncols).filter fun r =>
                decide (r.tag = Tag.leftOnly)).length
            + ((outerMerge tnew.rows told.rows tnew.ncols).filter fun r =>
                decide (r.tag = Tag.rightOnly)).length := by
  unfold comparePrimaryKeysAndRowsByPosition
  rw [if_neg (not_ne_iff.mpr hn)]
  refine ⟨_, rfl, ?_, length_eq_tag_partition _, ?_⟩
  · have hsplit := length_filter_and_split (outerMerge tnew.rows told.rows tnew.ncols)
      (fun r => decide (r.tag = Tag.both)) (fun r => fullMatchStrict tnew.ncols r)
    have hpart := length_eq_tag_partition (outerMerge tnew.rows told.rows tnew.ncols)
    simp only at hsplit hpart ⊢
    omega
  · have hcong : (outerMerge tnew.rows told.rows tnew.ncols).filter
        (fun r => decide (r.tag = Tag.both) && !fullMatchStrict tnew.ncols r)
      = (outerMerge tnew.rows told.rows tnew.ncols).filter
        (fun r => decide (r.tag = Tag.both) && !decide (StrictFullMatchSpec tnew.ncols r)) := by
      apply List.filter_congr
      intro r _
      rw [fullMatchStrict_eq_decide]
    rw [hcong]
    dsimp only
    omega

/-- C3 counterexample: on new = old = [("A", [null])] the Metrics Summary
reports Mismatch Record Count = 1, yet — reading "full match" as the
null-aware rule of the spec — the number of both-tagged joined records that
are not full matches plus the new-only count plus the old-only count is 0,
so the claimed mismatch decomposition fails under the spec's full-match
notion (the code's decomposition uses strict per-cell equality instead). -/
theorem c3_counterexample_null_aware_decomposition :
    comparePrimaryKeysAndRowsByPosition (K := String) (V := Nat)
        ⟨1, [("A", [none])]⟩ ⟨1, [("A", [none])]⟩
      = .ok ⟨1, 1, 0, 0, 0, 0, 0, 1⟩
    ∧ ((outerMerge (K := String) (V := Nat) [("A", [none])] [("A", [none])] 1).filter
          fun r => decide (r.tag = Tag.both) && !decide (FullMatchSpec 1 r)).length
        + ((outerMerge (K := String) (V := Nat) [("A", [none])] [("A", [none])] 1).filter
          fun r => decide (r.tag = Tag.leftOnly)).length
        + ((outerMerge (K := String) (V := Nat) [("A", [none])] [("A", [none])] 1).filter
          fun r => decide (r.tag = Tag.rightOnly)).length = 0 :=
  ⟨by decide, by decide⟩

/-- C5: the concrete scenario old = [(A, 5), (A, 6)], new = [(A, 5)]:
Duplicate-Records(old) has exactly the two A-rows, Extra-Records(old) is
empty, the outer join yields exactly two joined records, both both-tagged
with key A (the 2x1 fan-out), exactly one of them a full match under the
null-aware rule, and the metrics report Match = 1 and Mismatch = 1. -/
theorem c5_concrete_duplicate_fanout :
    getExtraAndDuplicateRecords (K := String) (V := Nat)
        ⟨1, [("A", [some 5])]⟩ ⟨1, [("A", [some 5]), ("A", [some 6])]⟩ "Old"
      = .ok ([], [("A", [some 5]), ("A", [some 6])])
    ∧ (outerMerge (K := String) (V := Nat)
        [("A", [some 5])] [("A", [some 5]), ("A", [some 6])] 1).length = 2
    ∧ (∀ r ∈ outerMerge (K := String) (V := Nat)
        [("A", [some 5])] [("A", [some 5]), ("A", [some 6])] 1,
        r.key = "A" ∧ r.tag = Tag.both)
    ∧ ((outerMerge (K := String) (V := Nat)
        [("A", [some 5])] [("A", [some 5]), ("A", [some 6])] 1).filter fun r =>
          decide (FullMatchSpec 1 r)).length = 1
    ∧ comparePrimaryKeysAndRowsByPosition (K := String) (V := Nat)
        ⟨1, [("A", [some 5])]⟩ ⟨1, [("A", [some 5]), ("A", [some 6])]⟩
      = .ok ⟨2, 1, 0, 0, 2, 0, 1, 1⟩ := by
  refine ⟨by decide, by decide, by decide, by decide, by decide⟩

/-- C8: the Extra & Duplicate Detector errors exactly when the side selector
is outside the two valid side names, and for each valid side selector it
returns both lists. -/
theorem c8_invalid_parameter_gate [DecidableEq K] (tnew told : Table K V) (table : String) :
    ((∃ e, getExtraAndDuplicateRecords tnew told table = .error e)
        ↔ (table ≠ "Old" ∧ table ≠ "New"))
    ∧ (∃ p, getExtraAndDuplicateRecords tnew told "Old" = .ok p)
    ∧ (∃ p, getExtraAndDuplicateRecords tnew told "New" = .ok p) := by
  unfold getExtraAndDuplicateRecords
  refine ⟨?_, ?_, ?_⟩
  · by_cases h1 : table = "Old"
    · subst h1; simp
    · by_cases h2 : table = "New"
      · subst h2; simp
      · simp [h1, h2]
  · simp
  · simp

/-- C4: for each side, Extra_Records is exactly the rows of that side whose
key occurs nowhere in the other side (each such row once, and a duplicated
key with any partner on the other side contributes no extras), and
Duplicate_Records is exactly the rows whose key occurs at least twice
within the same side, with multiplicity. -/
theorem c4_extra_and_duplicate_characterisation [DecidableEq K] (tnew told : Table K V) :
    getExtraAndDuplicateRecords tnew told "Old"
        = .ok (told.rows.filter fun r => decide (¬ r.1 ∈ tnew.rows.map Prod.fst),
               told.rows.filter fun r =>
                 decide (2 ≤ (told.rows.map Prod.fst).countP fun k => decide (k = r.1)))
    ∧ getExtraAndDuplicateRecords tnew told "New"
        = .ok (tnew.rows.filter fun r => decide (¬ r.1 ∈ told.rows.map Prod.fst),
               tnew.rows.filter fun r =>
                 decide (2 ≤ (tnew.rows.map Prod.fst).countP fun k => decide (k = r.1))) := by
  have hdup : ∀ rows : List (Row K V), duplicatedKeepFalseRows rows
      = rows.filter fun r =>
          decide (2 ≤ (rows.map Prod.fst).countP fun k => decide (k = r.1)) := by
    intro rows
    unfold duplicatedKeepFalseRows
    apply List.filter_congr
    intro r _
    rw [List.countP_map]
    rfl
  constructor
  · unfold getExtraAndDuplicateRecords
    rw [if_neg (by simp), if_pos rfl, leftMerge_leftOnly_eq_filter, hdup]
  · unfold getExtraAndDuplicateRecords
    rw [if_neg (by simp), if_neg (by simp), leftMerge_leftOnly_eq_filter, hdup]

theorem getD_replicate_none {α : Type} (n i : Nat) :
    (List.replicate n (none : Option α)).getD i none = none := by
  rw [List.getD_eq_getElem?_getD, List.getElem?_replicate]
  split <;> rfl

theorem filter_map_eq_filterMap {α β : Type} (p : α → Bool) (f : α → β) (l : List α) :
    (l.filter p).map f = l.filterMap fun a => if p a then some (f a) else none := by
  induction l with
  | nil => rfl
  | cons a t ih =>
    by_cases hp : p a <;> simp [List.filter_cons, List.filterMap_cons, hp, ih]

theorem detailedRowIncluded_both [DecidableEq V] {n : Nat} {r : JRec K V}
    (htag : r.tag = Tag.both) :
    detailedRowIncluded n r = !decide (FullMatchSpec n r) := by
  unfold detailedRowIncluded
  rw [htag, ← fullMatchNullAware_eq_decide]
  unfold fullMatchNullAware
  cases hall : (List.range n).all fun i =>
      cellMatch (r.newVals.getD i none) (r.oldVals.getD i none)
  · rw [List.all_eq_false] at hall
    rcases hall with ⟨i, hi, hc⟩
    have : (List.range n).any (fun i =>
        !cellMatch (r.newVals.getD i none) (r.oldVals.getD i none)) = true :=
      List.any_eq_true.mpr ⟨i, hi, by simp [Bool.not_eq_true] at hc ⊢; exact hc⟩
    rw [this]
    rfl
  · have : (List.range n).any (fun i =>
        !cellMatch (r.newVals.getD i none) (r.oldVals.getD i none)) = false := by
      rw [List.any_eq_false]
      intro i hi
      rw [List.all_eq_true] at hall
      rw [Bool.not_eq_true', hall i hi]
      simp
    rw [this]
    rfl

/-- C7: with equal non-key column counts the Matching-Records view returns
exactly the both-tagged joined records of the outer join whose every
non-key column matches under the null-aware rule (new value equals old
value or both null), each projected to the shared key and the new-side
cells. -/
theorem c7_matching_records_characterisation [DecidableEq K] [DecidableEq V]
    (tnew told : Table K V) (hn : tnew.ncols = told.ncols) :
    getMatchingRecords tnew told
      = .ok (((outerMerge tnew.rows told.rows tnew.ncols).filter fun r =>
            decide (r.tag = Tag.both) && decide (FullMatchSpec tnew.ncols r)).map
          fun r => (r.key, r.newVals)) := by
  unfold getMatchingRecords
  rw [if_neg (not_ne_iff.mpr hn)]
  have h1 : (outerMerge tnew.rows told.rows tnew.ncols).filter
        (fun r => decide (r.tag = Tag.both) && decide (FullMatchSpec tnew.ncols r))
      = (innerMerge tnew.rows told.rows).filter
        (fun r => fullMatchNullAware tnew.ncols r) := by
    rw [← outerMerge_filter_both_eq_innerMerge tnew.rows told.rows tnew.ncols,
      List.filter_filter]
    apply List.filter_congr
    intro r _
    rw [fullMatchNullAware_eq_decide, Bool.and_comm]
  rw [h1]

/-- C6: with equal non-key column counts the Detailed-Mismatch view drops
every full-match joined record, renders a differing cell of a both-tagged
record as the literal `O: <old-or-null>, N: <new-or-null>` annotation and a
matching cell as the plain new-side value, and emits every one-sided record
with every cell annotated and the absent side rendered as the literal
`null`. -/
theorem c6_detailed_mismatch_characterisation [DecidableEq K] [DecidableEq V]
    (toStr : V → String) (tnew told : Table K V) (hn : tnew.ncols = told.ncols) :
    getDetailedMismatchedRecords toStr tnew told
      = .ok ((outerMerge tnew.rows told.rows tnew.ncols).filterMap fun r =>
          if r.tag = Tag.both ∧ FullMatchSpec tnew.ncols r then none
          else some (r.key, (List.range tnew.ncols).map fun i =>
            if r.tag = Tag.leftOnly then
              Sum.inr ("O: null, N: " ++ renderVal toStr (r.newVals.getD i none))
            else if r.tag = Tag.rightOnly then
              Sum.inr ("O: " ++ renderVal toStr (r.oldVals.getD i none) ++ ", N: null")
            else if CellMatchesSpec (r.newVals.getD i none) (r.oldVals.getD i none) then
              Sum.inl (r.newVals.getD i none)
            else
              Sum.inr ("O: " ++ renderVal toStr (r.oldVals.getD i none)
                ++ ", N: " ++ renderVal toStr (r.newVals.getD i none)))) := by
  unfold getDetailedMismatchedRecords
  rw [if_neg (not_ne_iff.mpr hn), filter_map_eq_filterMap]
  congr 1
  apply List.filterMap_congr
  intro r _
  rcases htag : r.tag with _ | _ | _
  · by_cases hfm : FullMatchSpec tnew.ncols r
    · rw [detailedRowIncluded_both htag, decide_eq_true hfm]
      rw [if_neg (by simp), if_pos ⟨rfl, hfm⟩]
    · rw [detailedRowIncluded_both htag, decide_eq_false hfm]
      rw [if_pos (by simp), if_neg (fun hc => hfm hc.2)]
      refine congrArg some (congrArg (Prod.mk r.key) ?_)
      unfold detailedCells
      apply List.map_congr_left
      intro i _
      by_cases hc : CellMatchesSpec (r.newVals.getD i none) (r.oldVals.getD i none)
      · have hcm : cellMatch (r.newVals.getD i none) (r.oldVals.getD i none) = true :=
          (cellMatch_eq_true_iff _ _).mpr ((cellMatchesSpec_iff_eq _ _).mp hc)
        rw [htag]
        simp only [List.getD_eq_getElem?_getD] at hcm hc
        simp [hcm, hc]
      · have hcm : cellMatch (r.newVals.getD i none) (r.oldVals.getD i none) = false :=
          Bool.eq_false_iff.mpr fun he =>
            hc ((cellMatchesSpec_iff_eq _ _).mpr ((cellMatch_eq_true_iff _ _).mp he))
        rw [htag]
        simp only [List.getD_eq_getElem?_getD] at hcm hc
        simp [hcm, hc, mismatchCellStr]
  · have hincl : detailedRowIncluded tnew.ncols r = true := by
      unfold detailedRowIncluded
      rw [htag]
      simp
    rw [hincl, if_pos rfl, if_neg (fun hc => Tag.noConfusion hc.1)]
    refine congrArg some (congrArg (Prod.mk r.key) ?_)
    unfold detailedCells
    apply List.map_congr_left
    intro i _
    rw [htag]
    simp
  · have hincl : detailedRowIncluded tnew.ncols r = true := by
      unfold detailedRowIncluded
      rw [htag]
      simp
    rw [hincl, if_pos rfl, if_neg (fun hc => Tag.noConfusion hc.1)]
    refine congrArg some (congrArg (Prod.mk r.key) ?_)
    unfold detailedCells
    apply List.map_congr_left
    intro i _
    rw [htag]
    simp

/-- C9: in the Column Summary the Matches/Mismatches tallies for column `i`
count exactly the joined records whose column-`i` cells pass/fail the
null-aware comparison, and a one-sided record whose present-side value in
column `i` is null passes it (the absent side is null by construction), so
such a record is tallied as a match for the column and never as a
mismatch. -/
theorem c9_one_sided_null_counted_as_match [DecidableEq K] [DecidableEq V]
    (tnew told : Table K V) (hn : tnew.ncols = told.ncols) (i : Nat) (hi : i < tnew.ncols) :
    ∃ rows : List ColSummaryRow, generateColumnSummary tnew told = .ok rows
      ∧ rows[i]? = some (columnSummaryRow (outerMerge tnew.rows told.rows tnew.ncols) i)
      ∧ (columnSummaryRow (outerMerge tnew.rows told.rows tnew.ncols) i).Matches
          = (outerMerge tnew.rows told.rows tnew.ncols).countP
            (fun r => cellMatch (r.newVals.getD i none) (r.oldVals.getD i none))
      ∧ (columnSummaryRow (outerMerge tnew.rows told.rows tnew.ncols) i).Mismatches
          = (outerMerge tnew.rows told.rows tnew.ncols).countP
            (fun r => !cellMatch (r.newVals.getD i none) (r.oldVals.getD i none))
      ∧ ∀ r ∈ outerMerge tnew.rows told.rows tnew.ncols,
          (r.tag = Tag.leftOnly → r.newVals.getD i none = none →
            cellMatch (r.newVals.getD i none) (r.oldVals.getD i none) = true)
          ∧ (r.tag = Tag.rightOnly → r.oldVals.getD i none = none →
            cellMatch (r.newVals.getD i none) (r.oldVals.getD i none) = true) := by
  unfold generateColumnSummary
  rw [if_neg (not_ne_iff.mpr hn)]
  refine ⟨_, rfl, ?_, rfl, rfl, ?_⟩
  · rw [List.getElem?_map, List.getElem?_range hi]
    rfl
  · intro r hr
    constructor
    · intro htag hnv
      have hold := outerMerge_leftOnly_oldVals hr htag
      rw [hnv, hold, getD_replicate_none]
      rfl
    · intro htag hov
      have hnew := outerMerge_rightOnly_newVals hr htag
      rw [hov, hnew, getD_replicate_none]
      rfl

/-- C10: in the Column Summary row for column `i`, the Mismatches tally is
exactly the sum of the three not-both-null subcategories (they partition the
mismatched cells, a both-null cell never being a mismatch), while the
`Null - Null` tally counts both-null cells over the whole joined record
set, all of which are matches, so it is disjoint from the Mismatches
count. -/
theorem c10_column_summary_subcategory_partition [DecidableEq K] [DecidableEq V]
    (tnew told : Table K V) (hn : tnew.ncols = told.ncols) (i : Nat) (hi : i < tnew.ncols) :
    ∃ rows : List ColSummaryRow, generateColumnSummary tnew told = .ok rows
      ∧ rows[i]? = some (columnSummaryRow (outerMerge tnew.rows told.rows tnew.ncols) i)
      ∧ (columnSummaryRow (outerMerge tnew.rows told.rows tnew.ncols) i).Mismatches
          = (columnSummaryRow (outerMerge tnew.rows told.rows tnew.ncols) i).NotNullNotNull
            + (columnSummaryRow (outerMerge tnew.rows told.rows tnew.ncols) i).NotNullNull
            + (columnSummaryRow (outerMerge tnew.rows told.rows tnew.ncols) i).NullNotNull
      ∧ (columnSummaryRow (outerMerge tnew.rows told.rows tnew.ncols) i).NullNull
          = (outerMerge tnew.rows told.rows tnew.ncols).countP
            (fun r => (r.newVals.getD i none).isNone && (r.oldVals.getD i none).isNone)
      ∧ (columnSummaryRow (outerMerge tnew.rows told.rows tnew.ncols) i).NullNull
          ≤ (columnSummaryRow (outerMerge tnew.rows told.rows tnew.ncols) i).Matches
      ∧ (columnSummaryRow (outerMerge tnew.rows told.rows tnew.ncols) i).NullNull
          + (columnSummaryRow (outerMerge tnew.rows told.rows tnew.ncols) i).Mismatches
          ≤ (outerMerge tnew.rows told.rows tnew.ncols).length := by
  unfold generateColumnSummary
  rw [if_neg (not_ne_iff.mpr hn)]
  have hmono : (outerMerge tnew.rows told.rows tnew.ncols).countP
        (fun r => (r.newVals.getD i none).isNone && (r.oldVals.getD i none).isNone)
      ≤ (outerMerge tnew.rows told.rows tnew.ncols).countP
        (fun r => cellMatch (r.newVals.getD i none) (r.oldVals.getD i none)) := by
    apply List.countP_mono_left
    intro r _ h
    rcases Bool.and_eq_true_iff.mp h with ⟨h1, h2⟩
    rw [Option.isNone_iff_eq_none] at h1 h2
    rw [h1, h2]
    rfl
  have hpart : ((outerMerge tnew.rows told.rows tnew.ncols).filter
          (fun r => !cellMatch (r.newVals.getD i none) (r.oldVals.getD i none))).countP
        (fun r => (r.newVals.getD i none).isSome && (r.oldVals.getD i none).isSome)
      + ((outerMerge tnew.rows told.rows tnew.ncols).filter
          (fun r => !cellMatch (r.newVals.getD i none) (r.oldVals.getD i none))).countP
        (fun r => (r.newVals.getD i none).isSome && (r.oldVals.getD i none).isNone)
      + ((outerMerge tnew.rows told.rows tnew.ncols).filter
          (fun r => !cellMatch (r.newVals.getD i none) (r.oldVals.getD i none))).countP
        (fun r => (r.newVals.getD i none).isNone && (r.oldVals.getD i none).isSome)
      = ((outerMerge tnew.rows told.rows tnew.ncols).filter
          (fun r => !cellMatch (r.newVals.getD i none) (r.oldVals.getD i none))).length := by
    apply countP_three_partition
    intro x hx
    have hxf := (List.mem_filter.mp hx).2
    cases hnv : x.newVals.getD i none <;> cases hov : x.oldVals.getD i none
    · rw [hnv, hov] at hxf
      simp [cellMatch, bothNull] at hxf
    · simp [hnv, hov]
    · simp [hnv, hov]
    · simp [hnv, hov]
  have hsplit := List.length_eq_countP_add_countP
    (fun r : JRec K V => cellMatch (r.newVals.getD i none) (r.oldVals.getD i none))
    (outerMerge tnew.rows told.rows tnew.ncols)
  have hnotc : (outerMerge tnew.rows told.rows tnew.ncols).countP
        (fun r => decide ¬(cellMatch (r.newVals.getD i none) (r.oldVals.getD i none) = true))
      = (outerMerge tnew.rows told.rows tnew.ncols).countP
        (fun r => !cellMatch (r.newVals.getD i none) (r.oldVals.getD i none)) := by
    apply List.countP_congr
    intro r _
    simp
  refine ⟨_, rfl, ?_, ?_, rfl, hmono, ?_⟩
  · rw [List.getElem?_map, List.getElem?_range hi]
    rfl
  · dsimp only [columnSummaryRow]
    rw [hpart, List.countP_eq_length_filter]
  · dsimp only [columnSummaryRow]
    rw [hnotc] at hsplit
    omega

/-- C1 counterexample: on new = old = [("A", [null])] the single joined
record is both-tagged and its only cell is null on both sides — a full
match under the null-aware rule, and indeed the Matching-Records view
returns it — yet the Metrics Summary classifies it as a mismatch
(Match Record Count = 0, Mismatch Record Count = 1), so the null-aware
rule is not applied identically in the Metrics Summary. -/
theorem c1_counterexample_metrics_null_rule :
    comparePrimaryKeysAndRowsByPosition (K := String) (V := Nat)
        ⟨1, [("A", [none])]⟩ ⟨1, [("A", [none])]⟩
      = .ok ⟨1, 1, 0, 0, 0, 0, 0, 1⟩
    ∧ getMatchingRecords (K := String) (V := Nat)
        ⟨1, [("A", [none])]⟩ ⟨1, [("A", [none])]⟩
      = .ok [("A", [none])]
    ∧ (∀ r ∈ outerMerge (K := String) (V := Nat) [("A", [none])] [("A", [none])] 1,
        r.tag = Tag.both ∧ FullMatchSpec 1 r) :=
  ⟨by decide, by decide, by decide⟩

/-- C1 amended: the null-aware rule (equal or both null) governs the
Matching-Records view and the Column Summary, but the Metrics Summary's
Match Record Count uses strict equality per cell — both sides present and
equal — so a null-null cell makes a both-tagged record count as a mismatch
there. -/
theorem c1_amended_null_rule_per_view [DecidableEq K] [DecidableEq V]
    (tnew told : Table K V) (hn : tnew.ncols = told.ncols) :
    (∃ m : Metrics, comparePrimaryKeysAndRowsByPosition tnew told = .ok m
      ∧ m.matchRecordCount = ((outerMerge tnew.rows told.rows tnew.ncols).filter fun r =>
          decide (r.tag = Tag.both) && decide (StrictFullMatchSpec tnew.ncols r)).length)
    ∧ getMatchingRecords tnew told
        = .ok (((outerMerge tnew.rows told.rows tnew.ncols).filter fun r =>
              decide (r.tag = Tag.both) && decide (FullMatchSpec tnew.ncols r)).map
            fun r => (r.key, r.newVals))
    ∧ (∃ rows : List ColSummaryRow, generateColumnSummary tnew told = .ok rows
        ∧ ∀ i, i < tnew.ncols →
            rows[i]? = some (columnSummaryRow (outerMerge tnew.rows told.rows tnew.ncols) i)
            ∧ (columnSummaryRow (outerMerge tnew.rows told.rows tnew.ncols) i).Matches
                = (outerMerge tnew.rows told.rows tnew.ncols).countP
                  (fun r => decide
                    (CellMatchesSpec (r.newVals.getD i none) (r.oldVals.getD i none)))
            ∧ (columnSummaryRow (outerMerge tnew.rows told.rows tnew.ncols) i).Mismatches
                = (outerMerge tnew.rows told.rows tnew.ncols).countP
                  (fun r => !decide
                    (CellMatchesSpec (r.newVals.getD i none) (r.oldVals.getD i none)))) := by
  have hcell : ∀ r : JRec K V, ∀ i : Nat,
      cellMatch (r.newVals.getD i none) (r.oldVals.getD i none)
        = decide (CellMatchesSpec (r.newVals.getD i none) (r.oldVals.getD i none)) := by
    intro r i
    rw [cellMatch_eq_decide]
    rcases Decidable.em ((r.newVals.getD i none) = (r.oldVals.getD i none)) with h | h
    · rw [decide_eq_true h, decide_eq_true ((cellMatchesSpec_iff_eq _ _).mpr h)]
    · rw [decide_eq_false h,
        decide_eq_false (fun hc => h ((cellMatchesSpec_iff_eq _ _).mp hc))]
  refine ⟨?_, ?_, ?_⟩
  · unfold comparePrimaryKeysAndRowsByPosition
    rw [if_neg (not_ne_iff.mpr hn)]
    refine ⟨_, rfl, ?_⟩
    dsimp only
    congr 1
    apply List.filter_congr
    intro r _
    rw [fullMatchStrict_eq_decide]
  · unfold getMatchingRecords
    rw [if_neg (not_ne_iff.mpr hn)]
    have h1 : (outerMerge tnew.rows told.rows tnew.ncols).filter
          (fun r => decide (r.tag = Tag.both) && decide (FullMatchSpec tnew.ncols r))
        = (innerMerge tnew.rows told.rows).filter
          (fun r => fullMatchNullAware tnew.ncols r) := by
      rw [← outerMerge_filter_both_eq_innerMerge tnew.rows told.rows tnew.ncols,
        List.filter_filter]
      apply List.filter_congr
      intro r _
      rw [fullMatchNullAware_eq_decide, Bool.and_comm]
    rw [h1]
  · unfold generateColumnSummary
    rw [if_neg (not_ne_iff.mpr hn)]
    refine ⟨_, rfl, ?_⟩
    intro i hi
    refine ⟨?_, ?_, ?_⟩
    · rw [List.getElem?_map, List.getElem?_range hi]
      rfl
    · dsimp only [columnSummaryRow]
      apply List.countP_congr
      intro r _
      rw [hcell]
    · dsimp only [columnSummaryRow]
      apply List.countP_congr
      intro r _
      rw [hcell]

/-- C2 counterexample: with 1 vs 2 non-key columns the Reconciler raises a
schema-mismatch error, but the Per-Column Comparison sheets consumer does
not fail: it returns an empty sheet collection — a silent empty result
instead of an error. -/
theorem c2_counterexample_sheets_silently_empty :
    (∃ e, comparePrimaryKeysAndRowsByPosition (K := String) (V := Nat)
        ⟨1, [("A", [some 1])]⟩ ⟨2, [("A", [some 1, some 2])]⟩ = .error e)
    ∧ compareColumnsAndGenerateSheets (K := String) (V := Nat) toString
        ⟨1, [("A", [some 1])]⟩ ⟨2, [("A", [some 1, some 2])]⟩ = [] :=
  ⟨⟨_, rfl⟩, rfl⟩

/-- C2 amended: on differing non-key column counts the Reconciler, the
Column Summary, the Matching-Records view and the Detailed-Mismatch view
all fail with the schema-mismatch error before any comparison, but the
Per-Column Comparison sheets consumer instead returns an empty sheet
collection without failing. -/
theorem c2_amended_schema_mismatch_gate [DecidableEq K] [DecidableEq V]
    (toStr : V → String) (tnew told : Table K V) (hn : tnew.ncols ≠ told.ncols) :
    (∃ e, comparePrimaryKeysAndRowsByPosition tnew told = .error e)
    ∧ (∃ e, generateColumnSummary tnew told = .error e)
    ∧ (∃ e, getMatchingRecords tnew told = .error e)
    ∧ (∃ e, getDetailedMismatchedRecords toStr tnew told = .error e)
    ∧ compareColumnsAndGenerateSheets toStr tnew told = [] := by
  unfold comparePrimaryKeysAndRowsByPosition generateColumnSummary getMatchingRecords
    getDetailedMismatchedRecords compareColumnsAndGenerateSheets
  rw [if_pos hn, if_pos hn, if_pos hn, if_pos hn, if_pos hn]
  exact ⟨⟨_, rfl⟩, ⟨_, rfl⟩, ⟨_, rfl⟩, ⟨_, rfl⟩, rfl⟩

/-- Concrete new-side table used by the witnesses: key `A` with value 5 and
key `C` with a null cell. -/
def tNewW : Table String Nat := ⟨1, [("A", [some 5]), ("C", [none])]⟩

/-- Concrete old-side table used by the witnesses: key `A` with value 5 and
key `B` with value 7. -/
def tOldW : Table String Nat := ⟨1, [("A", [some 5]), ("B", [some 7])]⟩

/-- Concrete old-side table with two non-key columns, used by the
schema-mismatch witness. -/
def tWideW : Table String Nat := ⟨2, [("A", [some 1, some 2])]⟩

theorem c3_metrics_completeness_witness :
    ∃ m : Metrics, comparePrimaryKeysAndRowsByPosition tNewW tOldW = .ok m
      ∧ m.matchRecordCount + m.mismatchRecordCount
          = (outerMerge tNewW.rows tOldW.rows tNewW.ncols).length
      ∧ (outerMerge tNewW.rows tOldW.rows tNewW.ncols).length
          = ((outerMerge tNewW.rows tOldW.rows tNewW.ncols).filter fun r =>
                decide (r.tag = Tag.both)).length
            + ((outerMerge tNewW.rows tOldW.rows tNewW.ncols).filter fun r =>
                decide (r.tag = Tag.leftOnly)).length
            + ((outerMerge tNewW.rows tOldW.rows tNewW.ncols).filter fun r =>
                decide (r.tag = Tag.rightOnly)).length
      ∧ m.mismatchRecordCount
          = ((outerMerge tNewW.rows tOldW.rows tNewW.ncols).filter fun r =>
                decide (r.tag = Tag.both) && !decide (StrictFullMatchSpec tNewW.ncols r)).length
            + ((outerMerge tNewW.rows tOldW.rows tNewW.ncols).filter fun r =>
                decide (r.tag = Tag.leftOnly)).length
            + ((outerMerge tNewW.rows tOldW.rows tNewW.ncols).filter fun r =>
                decide (r.tag = Tag.rightOnly)).length :=
  c3_metrics_completeness tNewW tOldW rfl

theorem c4_extra_and_duplicate_witness :
    getExtraAndDuplicateRecords tNewW tOldW "Old"
        = .ok (tOldW.rows.filter fun r => decide (¬ r.1 ∈ tNewW.rows.map Prod.fst),
               tOldW.rows.filter fun r =>
                 decide (2 ≤ (tOldW.rows.map Prod.fst).countP fun k => decide (k = r.1)))
    ∧ getExtraAndDuplicateRecords tNewW tOldW "New"
        = .ok (tNewW.rows.filter fun r => decide (¬ r.1 ∈ tOldW.rows.map Prod.fst),
               tNewW.rows.filter fun r =>
                 decide (2 ≤ (tNewW.rows.map Prod.fst).countP fun k => decide (k = r.1))) :=
  c4_extra_and_duplicate_characterisation tNewW tOldW

theorem c7_matching_records_witness :
    getMatchingRecords tNewW tOldW
      = .ok (((outerMerge tNewW.rows tOldW.rows tNewW.ncols).filter fun r =>
            decide (r.tag = Tag.both) && decide (FullMatchSpec tNewW.ncols r)).map
          fun r => (r.key, r.newVals)) :=
  c7_matching_records_characterisation tNewW tOldW rfl

theorem c6_detailed_mismatch_witness :
    getDetailedMismatchedRecords toString tNewW tOldW
      = .ok ((outerMerge tNewW.rows tOldW.rows tNewW.ncols).filterMap fun r =>
          if r.tag = Tag.both ∧ FullMatchSpec tNewW.ncols r then none
          else some (r.key, (List.range tNewW.ncols).map fun i =>
            if r.tag = Tag.leftOnly then
              Sum.inr ("O: null, N: " ++ renderVal toString (r.newVals.getD i none))
            else if r.tag = Tag.rightOnly then
              Sum.inr ("O: " ++ renderVal toString (r.oldVals.getD i none) ++ ", N: null")
            else if CellMatchesSpec (r.newVals.getD i none) (r.oldVals.getD i none) then
              Sum.inl (r.newVals.getD i none)
            else
              Sum.inr ("O: " ++ renderVal toString (r.oldVals.getD i none)
                ++ ", N: " ++ renderVal toString (r.newVals.getD i none)))) :=
  c6_detailed_mismatch_characterisation toString tNewW tOldW rfl

theorem c8_invalid_parameter_witness :
    ((∃ e, getExtraAndDuplicateRecords tNewW tOldW "Both" = .error e)
        ↔ ("Both" ≠ "Old" ∧ "Both" ≠ "New"))
    ∧ (∃ p, getExtraAndDuplicateRecords tNewW tOldW "Old" = .ok p)
    ∧ (∃ p, getExtraAndDuplicateRecords tNewW tOldW "New" = .ok p) :=
  c8_invalid_parameter_gate tNewW tOldW "Both"

theorem c9_one_sided_null_witness :
    ∃ rows : List ColSummaryRow, generateColumnSummary tNewW tOldW = .ok rows
      ∧ rows[0]? = some (columnSummaryRow (outerMerge tNewW.rows tOldW.rows tNewW.ncols) 0)
      ∧ (columnSummaryRow (outerMerge tNewW.rows tOldW.rows tNewW.ncols) 0).Matches
          = (outerMerge tNewW.rows tOldW.rows tNewW.ncols).countP
            (fun r => cellMatch (r.newVals.getD 0 none) (r.oldVals.getD 0 none))
      ∧ (columnSummaryRow (outerMerge tNewW.rows tOldW.rows tNewW.ncols) 0).Mismatches
          = (outerMerge tNewW.rows tOldW.rows tNewW.ncols).countP
            (fun r => !cellMatch (r.newVals.getD 0 none) (r.oldVals.getD 0 none))
      ∧ ∀ r ∈ outerMerge tNewW.rows tOldW.rows tNewW.ncols,
          (r.tag = Tag.leftOnly → r.newVals.getD 0 none = none →
            cellMatch (r.newVals.getD 0 none) (r.oldVals.getD 0 none) = true)
          ∧ (r.tag = Tag.rightOnly → r.oldVals.getD 0 none = none →
            cellMatch (r.newVals.getD 0 none) (r.oldVals.getD 0 none) = true) :=
  c9_one_sided_null_counted_as_match tNewW tOldW rfl 0 (by decide)

theorem c10_column_summary_witness :
    ∃ rows : List ColSummaryRow, generateColumnSummary tNewW tOldW = .ok rows
      ∧ rows[0]? = some (columnSummaryRow (outerMerge tNewW.rows tOldW.rows tNewW.ncols) 0)
      ∧ (columnSummaryRow (outerMerge tNewW.rows tOldW.rows tNewW.ncols) 0).Mismatches
          = (columnSummaryRow (outerMerge tNewW.rows tOldW.rows tNewW.ncols) 0).NotNullNotNull
            + (columnSummaryRow (outerMerge tNewW.rows tOldW.rows tNewW.ncols) 0).NotNullNull
            + (columnSummaryRow (outerMerge tNewW.rows tOldW.rows tNewW.ncols) 0).NullNotNull
      ∧ (columnSummaryRow (outerMerge tNewW.rows tOldW.rows tNewW.ncols) 0).NullNull
          = (outerMerge tNewW.rows tOldW.rows tNewW.ncols).countP
            (fun r => (r.newVals.getD 0 none).isNone && (r.oldVals.getD 0 none).isNone)
      ∧ (columnSummaryRow (outerMerge tNewW.rows tOldW.rows tNewW.ncols) 0).NullNull
          ≤ (columnSummaryRow (outerMerge tNewW.rows tOldW.rows tNewW.ncols) 0).Matches
      ∧ (columnSummaryRow (outerMerge tNewW.rows tOldW.rows tNewW.ncols) 0).NullNull
          + (columnSummaryRow (outerMerge tNewW.rows tOldW.rows tNewW.ncols) 0).Mismatches
          ≤ (outerMerge tNewW.rows tOldW.rows tNewW.ncols).length :=
  c10_column_summary_subcategory_partition tNewW tOldW rfl 0 (by decide)

theorem c1_amended_null_rule_witness :
    (∃ m : Metrics, comparePrimaryKeysAndRowsByPosition tNewW tOldW = .ok m
      ∧ m.matchRecordCount = ((outerMerge tNewW.rows tOldW.rows tNewW.ncols).filter fun r =>
          decide (r.tag = Tag.both) && decide (StrictFullMatchSpec tNewW.ncols r)).length)
    ∧ getMatchingRecords tNewW tOldW
        = .ok (((outerMerge tNewW.rows tOldW.rows tNewW.ncols).filter fun r =>
              decide (r.tag = Tag.both) && decide (FullMatchSpec tNewW.ncols r)).map
            fun r => (r.key, r.newVals))
    ∧ (∃ rows : List ColSummaryRow, generateColumnSummary tNewW tOldW = .ok rows
        ∧ ∀ i, i < tNewW.ncols →
            rows[i]? = some (columnSummaryRow (outerMerge tNewW.rows tOldW.rows tNewW.ncols) i)
            ∧ (columnSummaryRow (outerMerge tNewW.rows tOldW.rows tNewW.ncols) i).Matches
                = (outerMerge tNewW.rows tOldW.rows tNewW.ncols).countP
                  (fun r => decide
                    (CellMatchesSpec (r.newVals.getD i none) (r.oldVals.getD i none)))
            ∧ (columnSummaryRow (outerMerge tNewW.rows tOldW.rows tNewW.ncols) i).Mismatches
                = (outerMerge tNewW.rows tOldW.rows tNewW.ncols).countP
                  (fun r => !decide
                    (CellMatchesSpec (r.newVals.getD i none) (r.oldVals.getD i none)))) :=
  c1_amended_null_rule_per_view tNewW tOldW rfl

theorem c2_amended_schema_mismatch_witness :
    (∃ e, comparePrimaryKeysAndRowsByPosition tNewW tWideW = .error e)
    ∧ (∃ e, generateColumnSummary tNewW tWideW = .error e)
    ∧ (∃ e, getMatchingRecords tNewW tWideW = .error e)
    ∧ (∃ e, getDetailedMismatchedRecords toString tNewW tWideW = .error e)
    ∧ compareColumnsAndGenerateSheets toString tNewW tWideW = [] :=
  c2_amended_schema_mismatch_gate toString tNewW tWideW (by decide)

end DataSync
